import Mathlib

/-!
Verification of the `remote-vector-index-builder` core pipeline.

The development shallowly embeds the configuration-assembly code, the build
orchestrator `run_tasks` (core/tasks.py), the GPU-to-CPU conversion code and
the S3 object-store adapter, and proves or refutes the specified properties
about them. Paths and textual data are modelled as `List Char`; Python
exceptions are modelled with `Except String`; mutable objects are modelled by
returning the object's post-state alongside the result.
-/

namespace RVIB

/-! ## Python string and path primitives used by `upload_index` and `run_tasks`

`pySplitDot` models Python `s.split(".")`, `pyJoinDot` models `".".join(xs)`,
and `basenameChars` models `os.path.basename` (POSIX). -/

/-- Python `s.split(".")` on a character list: `"".split(".") == [""]`. -/
def pySplitDot : List Char → List (List Char)
  | [] => [[]]
  | c :: rest =>
    if c = '.' then [] :: pySplitDot rest
    else
      match pySplitDot rest with
      | [] => [[c]]
      | g :: gs => (c :: g) :: gs

/-- Python `".".join(xs)` on character lists. -/
def pyJoinDot : List (List Char) → List Char
  | [] => []
  | [g] => g
  | g :: gs => g ++ '.' :: pyJoinDot gs

/-- `".".join(path.split(".")[0:-1])` from `core/tasks.py::upload_index`:
the vector path with its final dot-extension removed. -/
def vectorRootPath (path : List Char) : List Char :=
  pyJoinDot (pySplitDot path).dropLast

/-- `os.path.basename`: the part of the path after the last `/`. -/
def basenameChars (path : List Char) : List Char :=
  (path.reverse.takeWhile (fun c => c ≠ '/')).reverse

theorem pySplitDot_ne_nil (l : List Char) : pySplitDot l ≠ [] := by
  cases l with
  | nil => simp [pySplitDot]
  | cons c rest =>
    simp only [pySplitDot]
    split
    · simp
    · split
      · simp
      · simp

/-- A list without any dot splits into the single group holding it. -/
theorem pySplitDot_no_dot (l : List Char) (h : '.' ∉ l) :
    pySplitDot l = [l] := by
  induction l with
  | nil => rfl
  | cons c rest ih =>
    simp only [List.mem_cons, not_or] at h
    simp only [pySplitDot]
    rw [if_neg (fun hc => h.1 hc.symm)]
    rw [ih h.2]

/-- Splitting `s ++ "." ++ ext` for a dot-free `ext` appends one group. -/
theorem pySplitDot_append_dot (s ext : List Char) (h : '.' ∉ ext) :
    pySplitDot (s ++ '.' :: ext) = pySplitDot s ++ [ext] := by
  induction s with
  | nil =>
    simp only [List.nil_append, pySplitDot, if_pos rfl]
    rw [pySplitDot_no_dot ext h]
    rfl
  | cons c rest ih =>
    by_cases hc : c = '.'
    · subst hc
      simp only [List.cons_append, pySplitDot, if_pos rfl, List.append_eq]
      rw [ih]
      rfl
    · simp only [List.cons_append, pySplitDot, if_neg hc, List.append_eq]
      rw [ih]
      rcases hrest : pySplitDot rest with _ | ⟨g, gs⟩
      · exact absurd hrest (pySplitDot_ne_nil rest)
      · rfl

/-- Joining the split groups reassembles the original list. -/
theorem pyJoinDot_pySplitDot (l : List Char) : pyJoinDot (pySplitDot l) = l := by
  induction l with
  | nil => rfl
  | cons c rest ih =>
    simp only [pySplitDot]
    by_cases hc : c = '.'
    · subst hc
      rw [if_pos rfl]
      rcases hrest : pySplitDot rest with _ | ⟨g, gs⟩
      · exact absurd hrest (pySplitDot_ne_nil rest)
      · rw [hrest] at ih
        simpa [pyJoinDot] using ih
    · rw [if_neg hc]
      rcases hrest : pySplitDot rest with _ | ⟨g, gs⟩
      · exact absurd hrest (pySplitDot_ne_nil rest)
      · rw [hrest] at ih
        cases gs with
        | nil => simpa [pyJoinDot] using ih
        | cons g2 gs2 => simpa [pyJoinDot] using ih

/-- Stripping the final extension of `s ++ ".knnvec"` gives back `s`. -/
theorem vectorRootPath_knnvec (s : List Char) :
    vectorRootPath (s ++ ".knnvec".toList) = s := by
  have hnd : '.' ∉ "knnvec".toList := by decide
  have : (".knnvec".toList : List Char) = '.' :: "knnvec".toList := by decide
  rw [vectorRootPath, this, pySplitDot_append_dot s _ hnd,
    List.dropLast_concat, pyJoinDot_pySplitDot]

/-! ## The orchestrator `run_tasks` (core/tasks.py)

`run_tasks` drives fetch, build, conversion, persist and upload against
collaborators (object store, faiss service). The collaborators are external
and may fail at any stage, so the model quantifies over a `StageBehavior`
giving each stage's outcome: `.ok ()` for success, `.error msg` for a raised
exception whose `str(e)` is `msg`.

The run is instrumented with a `RunState` recording the lifecycle of every
staging resource and native handle touched by the run, to settle the
exactly-once-release and ordering properties. -/

/-- `TaskResult` from core/tasks.py: file name of the uploaded index or the
textual error, each optional. -/
structure TaskResult where
  file_name : Option (List Char) := none
  error : Option (List Char) := none
  deriving Repr, DecidableEq

/-- The fields of `IndexBuildParameters` that `run_tasks` and `upload_index`
read: the remote vector path and the engine identifier. Pydantic validation
(vector path ends in `.knnvec`) is carried as a hypothesis where needed. -/
structure IndexBuildParameters where
  vector_path : List Char
  engine : List Char
  deriving Repr, DecidableEq

/-- `IndexSerializationMode` from core/tasks.py. -/
inductive IndexSerializationMode
  | DISK
  | MEMORY
  deriving Repr, DecidableEq

/-- Outcome of each collaborator call `run_tasks` makes, in program order.
`Except.error msg` models the call raising an exception with message `msg`. -/
structure StageBehavior where
  createObjectStore : Except (List Char) Unit
  readVectorBlob : Except (List Char) Unit
  readDocIdBlob : Except (List Char) Unit
  parseDataset : Except (List Char) Unit
  buildGpu : Except (List Char) Unit
  convertToCpu : Except (List Char) Unit
  persistIndex : Except (List Char) Unit
  uploadBlob : Except (List Char) Unit

/-- Observable resource events of one run, used for ordering properties. -/
inductive RunEvent
  | datasetCreated
  | gpuIndexBuilt
  | gpuConvertedToCpu
  | datasetFreed
  | indexPersisted
  | indexUploaded
  | cpuIndexReleased
  deriving Repr, DecidableEq

/-- Instrumented resource state of one `run_tasks` invocation.

`dsFreeEffective` counts releases of the `VectorsDataset` that actually freed
it (`free_vectors_space` is idempotent, so a second call is a no-op);
`dsFreeCalls` counts every invocation. The `BytesIO` buffers are likewise
closed idempotently. Native handles are counted register/release. -/
structure RunState where
  dsCreated : Bool := false
  dsLive : Bool := false
  dsFreeCalls : Nat := 0
  dsFreeEffective : Nat := 0
  vecBufOpen : Bool := true
  vecBufCloseEffective : Nat := 0
  docBufOpen : Bool := true
  docBufCloseEffective : Nat := 0
  gpuRegistered : Nat := 0
  gpuReleased : Nat := 0
  cpuRegistered : Nat := 0
  cpuReleased : Nat := 0
  indexStorageReleased : Bool := false
  events : List RunEvent := []
  deriving Repr, DecidableEq

/-- Modelled from the spec: `VectorsDataset.free_vectors_space`
(core/common/models/vectors_dataset.py is not under src/). Per the spec,
release is idempotent: it zeroes the internal references, so a second release
is a no-op, not an error. -/
def freeVectorsSpace (st : RunState) : RunState :=
  if st.dsLive then
    { st with
      dsLive := false
      dsFreeCalls := st.dsFreeCalls + 1
      dsFreeEffective := st.dsFreeEffective + 1
      events := st.events ++ [RunEvent.datasetFreed] }
  else
    { st with dsFreeCalls := st.dsFreeCalls + 1 }

/-- `BytesIO.close` of the vector buffer; closing a closed buffer is a no-op. -/
def closeVectorBuffer (st : RunState) : RunState :=
  if st.vecBufOpen then
    { st with vecBufOpen := false, vecBufCloseEffective := st.vecBufCloseEffective + 1 }
  else st

/-- `BytesIO.close` of the doc-id buffer; closing a closed buffer is a no-op. -/
def closeDocIdBuffer (st : RunState) : RunState :=
  if st.docBufOpen then
    { st with docBufOpen := false, docBufCloseEffective := st.docBufCloseEffective + 1 }
  else st

/-- Message wrapper of the faiss service orchestration, as in
core/index_builder/faiss/faiss_index_build_service.py::build_index. -/
def wrapServiceError (e : List Char) : List Char :=
  "Faiss Orchestrater build_index workflow failed. Reason: ".toList ++ e

/-- Message wrapper of the GPU build step
(faiss_index_build_service.py::build_gpu_index). -/
def wrapGpuBuildError (e : List Char) : List Char :=
  "Failed to create faiss GPU index: ".toList ++ e

/-- Message wrapper of the conversion step
(faiss_index_build_service.py::convert_gpu_to_cpu_index). -/
def wrapConvertError (e : List Char) : List Char :=
  "Failed to convert GPU index to CPU index: ".toList ++ e

/-- Message wrapper of the persist step
(faiss_index_build_service.py::write_cpu_index). -/
def wrapPersistError (e : List Char) : List Char :=
  "Unexpected error while writing index to file: ".toList ++ e

/-- Modelled from the spec: the `FaissIndexBuildService.build_index` variant
called by core/tasks.py (two arguments, returning the CPU index response);
that file version is not under src/, only an older three-argument variant is.
Per spec section 4.3/4.4 it builds the GPU index, registers the handle,
converts it to a CPU handle (the transfer consumes the GPU handle, freeing the
GPU-resident native structure exactly once), and on any failure releases every
handle it registered before the error propagates. -/
def serviceBuildIndex (b : StageBehavior) (st : RunState) :
    Except (List Char) RunState × RunState :=
  match b.buildGpu with
  | .error e =>
    -- build_gpu_index releases any handles it created before raising
    (.error (wrapServiceError (wrapGpuBuildError e)), st)
  | .ok _ =>
    let st1 := { st with
      gpuRegistered := st.gpuRegistered + 1
      events := st.events ++ [RunEvent.gpuIndexBuilt] }
    match b.convertToCpu with
    | .error e =>
      -- the service's finally block releases the GPU index response
      let st2 := { st1 with gpuReleased := st1.gpuReleased + 1 }
      (.error (wrapServiceError (wrapConvertError e)), st2)
    | .ok _ =>
      -- transfer consumes the GPU handle and produces the CPU handle
      let st2 := { st1 with
        gpuReleased := st1.gpuReleased + 1
        cpuRegistered := st1.cpuRegistered + 1
        events := st1.events ++ [RunEvent.gpuConvertedToCpu] }
      (.ok st2, st2)

/-- The `try` block of `run_tasks` (core/tasks.py lines 121-199): object-store
creation, fetch, build+conversion, freeing of the staging dataset and buffers,
persist, upload. On success the value is the remote path of the artifact. -/
def runTasksTry (p : IndexBuildParameters) (b : StageBehavior) (st : RunState) :
    Except (List Char) (List Char) × RunState :=
  match b.createObjectStore with
  | .error e => (.error e, st)
  | .ok _ =>
    match b.readVectorBlob with
    | .error e => (.error e, st)
    | .ok _ =>
      match b.readDocIdBlob with
      | .error e => (.error e, st)
      | .ok _ =>
        match b.parseDataset with
        | .error e => (.error e, st)
        | .ok _ =>
          let st1 := { st with
            dsCreated := true
            dsLive := true
            events := st.events ++ [RunEvent.datasetCreated] }
          match serviceBuildIndex b st1 with
          | (.error e, st2) => (.error e, st2)
          | (.ok _, st2) =>
            -- lines 160-167: free the vectors, close the buffers
            let st3 := closeDocIdBuffer (closeVectorBuffer (freeVectorsSpace st2))
            match b.persistIndex with
            | .error e => (.error (wrapPersistError e), st3)
            | .ok _ =>
              let st4 := { st3 with events := st3.events ++ [RunEvent.indexPersisted] }
              match b.uploadBlob with
              | .error e => (.error e, st4)
              | .ok _ =>
                let st5 := { st4 with events := st4.events ++ [RunEvent.indexUploaded] }
                (.ok (vectorRootPath p.vector_path ++ '.' :: p.engine), st5)

/-- The `finally` block of `run_tasks` (lines 207-211) followed by frame exit:
free the dataset if one was created, close both buffers; the CPU index
response local is destroyed when the frame exits, and the index storage
context (buffer or temp file) is torn down by its own context manager. -/
def runTasksFinally (st : RunState) : RunState :=
  let st1 := if st.dsCreated then freeVectorsSpace st else st
  let st2 := closeDocIdBuffer (closeVectorBuffer st1)
  let st3 :=
    if st2.cpuReleased < st2.cpuRegistered then
      { st2 with
        cpuReleased := st2.cpuReleased + 1
        events := st2.events ++ [RunEvent.cpuIndexReleased] }
    else st2
  { st3 with indexStorageReleased := true }

/-- `run_tasks` (core/tasks.py): runs the try block, applies the
except-handler translation of a raised exception into `TaskResult.error`, and
performs the guaranteed cleanup. The serialization mode selects the index
storage target; the storage context is torn down on every path. -/
def runTasks (p : IndexBuildParameters) (_mode : IndexSerializationMode)
    (b : StageBehavior) : TaskResult × RunState :=
  let (r, st) := runTasksTry p b {}
  let stf := runTasksFinally st
  match r with
  | .ok remotePath => ({ file_name := some (basenameChars remotePath) }, stf)
  | .error e => ({ error := some e }, stf)

/-- The message of the first failing stage, with the wrappings each layer
applies — the specification of which error `run_tasks` reports. -/
def firstStageError (b : StageBehavior) : Option (List Char) :=
  match b.createObjectStore with
  | .error e => some e
  | .ok _ =>
    match b.readVectorBlob with
    | .error e => some e
    | .ok _ =>
      match b.readDocIdBlob with
      | .error e => some e
      | .ok _ =>
        match b.parseDataset with
        | .error e => some e
        | .ok _ =>
          match b.buildGpu with
          | .error e => some (wrapServiceError (wrapGpuBuildError e))
          | .ok _ =>
            match b.convertToCpu with
            | .error e => some (wrapServiceError (wrapConvertError e))
            | .ok _ =>
              match b.persistIndex with
              | .error e => some (wrapPersistError e)
              | .ok _ =>
                match b.uploadBlob with
                | .error e => some e
                | .ok _ => none

/-- C1: across every collaborator behaviour — success and every injected
failure point — every staging resource and native handle created during the
run is released exactly once by the time `run_tasks` returns, and on the
success path the staging `VectorsDataset` is freed after the GPU-to-CPU
conversion and before the index is persisted. -/
theorem run_tasks_releases_exactly_once (p : IndexBuildParameters)
    (mode : IndexSerializationMode) (b : StageBehavior) :
    ((runTasks p mode b).2.dsCreated = true → (runTasks p mode b).2.dsFreeEffective = 1)
    ∧ (runTasks p mode b).2.vecBufCloseEffective = 1
    ∧ (runTasks p mode b).2.docBufCloseEffective = 1
    ∧ (runTasks p mode b).2.gpuRegistered = (runTasks p mode b).2.gpuReleased
    ∧ (runTasks p mode b).2.cpuRegistered = (runTasks p mode b).2.cpuReleased
    ∧ (runTasks p mode b).2.indexStorageReleased = true
    ∧ ((runTasks p mode b).1.error = none →
        (runTasks p mode b).2.events = [RunEvent.datasetCreated, RunEvent.gpuIndexBuilt,
          RunEvent.gpuConvertedToCpu, RunEvent.datasetFreed, RunEvent.indexPersisted,
          RunEvent.indexUploaded, RunEvent.cpuIndexReleased]) := by
  obtain ⟨c, rv, rd, pd, bg, cv, ps, up⟩ := b
  cases c <;> cases rv <;> cases rd <;> cases pd <;> cases bg <;> cases cv <;>
    cases ps <;> cases up <;>
      simp [runTasks, runTasksTry, serviceBuildIndex, runTasksFinally,
        freeVectorsSpace, closeVectorBuffer, closeDocIdBuffer]

/-- Witness for the hypotheses of `run_tasks_releases_exactly_once`: on the
all-success behaviour the dataset is created and freed once, and the event
trace frees the staging dataset between conversion and persistence. -/
theorem run_tasks_releases_exactly_once_witness :
    (runTasks ⟨"a/b/c.knnvec".toList, "faiss".toList⟩ .DISK
        ⟨.ok (), .ok (), .ok (), .ok (), .ok (), .ok (), .ok (), .ok ()⟩).2.dsCreated = true
    ∧ (runTasks ⟨"a/b/c.knnvec".toList, "faiss".toList⟩ .DISK
        ⟨.ok (), .ok (), .ok (), .ok (), .ok (), .ok (), .ok (), .ok ()⟩).1.error = none
    ∧ (runTasks ⟨"a/b/c.knnvec".toList, "faiss".toList⟩ .DISK
        ⟨.ok (), .ok (), .ok (), .ok (), .ok (), .ok (), .ok (), .ok ()⟩).2.dsFreeEffective = 1
    ∧ (runTasks ⟨"a/b/c.knnvec".toList, "faiss".toList⟩ .DISK
        ⟨.ok (), .ok (), .ok (), .ok (), .ok (), .ok (), .ok (), .ok ()⟩).2.events
        = [RunEvent.datasetCreated, RunEvent.gpuIndexBuilt, RunEvent.gpuConvertedToCpu,
          RunEvent.datasetFreed, RunEvent.indexPersisted, RunEvent.indexUploaded,
          RunEvent.cpuIndexReleased] :=
  ⟨rfl, rfl,
    (run_tasks_releases_exactly_once ⟨"a/b/c.knnvec".toList, "faiss".toList⟩ .DISK
      ⟨.ok (), .ok (), .ok (), .ok (), .ok (), .ok (), .ok (), .ok ()⟩).1 rfl,
    (run_tasks_releases_exactly_once ⟨"a/b/c.knnvec".toList, "faiss".toList⟩ .DISK
      ⟨.ok (), .ok (), .ok (), .ok (), .ok (), .ok (), .ok (), .ok ()⟩).2.2.2.2.2.2 rfl⟩

/-- C2: the orchestrator boundary converts every stage exception into
`TaskResult.error` holding that exception's textual message (with the
wrappings the service layers apply), and produces an artifact name exactly
when no stage failed; the catch-all handler means no stage exception
propagates out of `run_tasks`. -/
theorem run_tasks_never_raises (p : IndexBuildParameters)
    (mode : IndexSerializationMode) (b : StageBehavior) :
    (runTasks p mode b).1.error = firstStageError b
    ∧ ((runTasks p mode b).1.file_name.isSome ↔ firstStageError b = none) := by
  obtain ⟨c, rv, rd, pd, bg, cv, ps, up⟩ := b
  cases c <;> cases rv <;> cases rd <;> cases pd <;> cases bg <;> cases cv <;>
    cases ps <;> cases up <;>
      simp [runTasks, runTasksTry, serviceBuildIndex, firstStageError]

/-- "Non-empty" in the sense of the result-exclusivity property: the optional
field is populated with a non-empty string. -/
def optNonEmpty : Option (List Char) → Bool
  | some (_ :: _) => true
  | _ => false

/-- The basename of `root ++ "." ++ engine` is non-empty when the engine
identifier is non-empty and contains no path separator. -/
theorem basenameChars_ext_ne_nil (root engine : List Char)
    (heng : engine ≠ []) (hslash : '/' ∉ engine) :
    basenameChars (root ++ '.' :: engine) ≠ [] := by
  have hrev : (root ++ '.' :: engine).reverse
      = engine.reverse ++ '.' :: root.reverse := by
    simp
  rcases hrevEng : engine.reverse with _ | ⟨c, t⟩
  · exact absurd (by simpa using congrArg List.reverse hrevEng) heng
  · have hc : c ∈ engine := by
      have : c ∈ engine.reverse := by rw [hrevEng]; exact List.mem_cons_self c t
      simpa using this
    have hcne : c ≠ '/' := fun h => hslash (h ▸ hc)
    rw [basenameChars, hrev, hrevEng]
    simp [List.takeWhile_cons, hcne]

/-- A behaviour whose fetch stage raises an exception with an empty message
(e.g. `raise BlobError()`), as a mock or an exception with no args would. -/
def emptyMessageBehavior : StageBehavior :=
  ⟨.ok (), .error [], .ok (), .ok (), .ok (), .ok (), .ok (), .ok ()⟩

/-- C3 counterexample: when a stage raises an exception whose textual message
is empty, `run_tasks` returns `TaskResult(file_name=None, error="")` — the
error field is populated but empty, so NEITHER field is a non-empty string,
refuting "exactly one of file_name and error non-empty ... on failure error
is a non-empty string". -/
theorem task_result_exclusivity_counterexample :
    (runTasks ⟨"a/b/c.knnvec".toList, "faiss".toList⟩ .DISK
        emptyMessageBehavior).1.error = some []
    ∧ (runTasks ⟨"a/b/c.knnvec".toList, "faiss".toList⟩ .DISK
        emptyMessageBehavior).1.file_name = none
    ∧ ¬(optNonEmpty (runTasks ⟨"a/b/c.knnvec".toList, "faiss".toList⟩ .DISK
          emptyMessageBehavior).1.file_name
        ≠ optNonEmpty (runTasks ⟨"a/b/c.knnvec".toList, "faiss".toList⟩ .DISK
          emptyMessageBehavior).1.error) :=
  ⟨rfl, rfl, by decide⟩

/-- C3 amended: every `TaskResult` returned by `run_tasks` has exactly one of
`file_name`/`error` populated — on success `file_name` is a non-empty
basename and `error` is `None`; on failure `error` is populated with exactly
the raised exception's message (which is empty exactly when that message is
empty) and `file_name` is `None`. -/
theorem task_result_exclusivity (p : IndexBuildParameters)
    (mode : IndexSerializationMode) (b : StageBehavior)
    (heng : p.engine ≠ []) (hslash : '/' ∉ p.engine) :
    (∃ fn, fn ≠ [] ∧ (runTasks p mode b).1 = { file_name := some fn, error := none })
    ∨ (∃ e, (runTasks p mode b).1 = { file_name := none, error := some e }) := by
  obtain ⟨vp, eng⟩ := p
  obtain ⟨c, rv, rd, pd, bg, cv, ps, up⟩ := b
  cases c <;> cases rv <;> cases rd <;> cases pd <;> cases bg <;> cases cv <;>
    cases ps <;> cases up <;>
      simp only [runTasks, runTasksTry, serviceBuildIndex] <;>
      first
        | (right; exact ⟨_, rfl⟩)
        | (left;
           exact ⟨_, basenameChars_ext_ne_nil (vectorRootPath vp) eng heng hslash, rfl⟩)

/-- Witness for `task_result_exclusivity` at a concrete successful run. -/
theorem task_result_exclusivity_witness :
    (∃ fn, fn ≠ [] ∧ (runTasks ⟨"a/b/c.knnvec".toList, "faiss".toList⟩ .MEMORY
        ⟨.ok (), .ok (), .ok (), .ok (), .ok (), .ok (), .ok (), .ok ()⟩).1
        = { file_name := some fn, error := none })
    ∨ (∃ e, (runTasks ⟨"a/b/c.knnvec".toList, "faiss".toList⟩ .MEMORY
        ⟨.ok (), .ok (), .ok (), .ok (), .ok (), .ok (), .ok (), .ok ()⟩).1
        = { file_name := none, error := some e }) :=
  task_result_exclusivity ⟨"a/b/c.knnvec".toList, "faiss".toList⟩ .MEMORY
    ⟨.ok (), .ok (), .ok (), .ok (), .ok (), .ok (), .ok (), .ok ()⟩
    (by decide) (by decide)

/-! ## `upload_index` and the S3 object store (C6, C10) -/

/-- Character-literal restatement of `vectorRootPath_knnvec`, matching the
normal form `simp` produces for the string literal. -/
theorem vectorRootPath_knnvec_chars (s : List Char) :
    vectorRootPath (s ++ ['.', 'k', 'n', 'n', 'v', 'e', 'c']) = s :=
  vectorRootPath_knnvec s

/-- Log of the paths an object store was asked to write. -/
structure ObjectStoreLog where
  written : List (List Char) := []
  deriving Repr, DecidableEq

/-- `upload_index` from core/tasks.py: replaces the final extension of the
vector path with the engine identifier, writes the artifact there, and
returns that remote path. -/
def upload_index (p : IndexBuildParameters) (store : ObjectStoreLog) :
    List Char × ObjectStoreLog :=
  let vector_root_path := vectorRootPath p.vector_path
  let index_remote_path := vector_root_path ++ '.' :: p.engine
  (index_remote_path, { written := store.written ++ [index_remote_path] })

/-- C6: for a vector path ending in the vector-file extension, `upload_index`
writes to and returns the path with `.knnvec` replaced by the engine
identifier, and a successful `run_tasks` reports the basename of that remote
path as the artifact name. -/
theorem upload_index_artifact_naming (s engine : List Char)
    (store : ObjectStoreLog) (mode : IndexSerializationMode) (b : StageBehavior) :
    (upload_index ⟨s ++ ".knnvec".toList, engine⟩ store).1 = s ++ '.' :: engine
    ∧ (upload_index ⟨s ++ ".knnvec".toList, engine⟩ store).2.written
        = store.written ++ [s ++ '.' :: engine]
    ∧ ((runTasks ⟨s ++ ".knnvec".toList, engine⟩ mode b).1.error = none →
        (runTasks ⟨s ++ ".knnvec".toList, engine⟩ mode b).1.file_name
          = some (basenameChars (s ++ '.' :: engine))) := by
  refine ⟨?_, ?_, ?_⟩
  · simp [upload_index, vectorRootPath_knnvec_chars]
  · simp [upload_index, vectorRootPath_knnvec_chars]
  · obtain ⟨c, rv, rd, pd, bg, cv, ps, up⟩ := b
    cases c <;> cases rv <;> cases rd <;> cases pd <;> cases bg <;> cases cv <;>
      cases ps <;> cases up <;>
        simp [runTasks, runTasksTry, serviceBuildIndex, vectorRootPath_knnvec_chars]

/-- Witness for `upload_index_artifact_naming`: vector path `"a/b/c.knnvec"`
with engine `"faiss"` uploads to `"a/b/c.faiss"`, and the successful run
reports the basename `"c.faiss"`. -/
theorem upload_index_artifact_naming_witness :
    (upload_index ⟨"a/b/c.knnvec".toList, "faiss".toList⟩ ⟨[]⟩).1
        = "a/b/c.faiss".toList
    ∧ (runTasks ⟨"a/b/c.knnvec".toList, "faiss".toList⟩ .DISK
        ⟨.ok (), .ok (), .ok (), .ok (), .ok (), .ok (), .ok (), .ok ()⟩).1.file_name
        = some "c.faiss".toList := by
  have h := upload_index_artifact_naming "a/b/c".toList "faiss".toList ⟨[]⟩ .DISK
    ⟨.ok (), .ok (), .ok (), .ok (), .ok (), .ok (), .ok (), .ok ()⟩
  refine ⟨?_, ?_⟩
  · have h1 := h.1
    simpa using h1
  · have h3 := h.2.2 (by rfl)
    simpa using h3

/-- The source argument S3's `write_blob` receives from `upload_index`:
either a local file path (disk serialization) or an in-memory `BytesIO`
buffer (memory serialization). -/
inductive UploadSource
  | filePath (p : List Char)
  | buffer
  deriving Repr, DecidableEq

/-- `boto3.Client.upload_file`: accepts only a filename; handed a file-like
object it raises `ValueError("Filename must be a string or a path-like
object")`, which is not a `ClientError`. A genuine file-path upload succeeds
or fails with the transport. -/
def boto3UploadFile (transport : Except (List Char) Unit) :
    UploadSource → Except (List Char) Unit
  | .filePath _ => transport
  | .buffer => .error "Filename must be a string or a path-like object".toList

/-- `S3ObjectStore.write_blob` (core/object_store/s3/s3_object_store.py):
forwards its source argument unconditionally to `upload_file`; it has no
branch for an in-memory buffer. Only `ClientError` is translated to
`BlobError`, everything else propagates. -/
def s3WriteBlob (transport : Except (List Char) Unit) (source : UploadSource)
    (_remote_store_path : List Char) : Except (List Char) Unit :=
  boto3UploadFile transport source

/-- The source `run_tasks` stages for the upload under each serialization
mode: `index_storage_context` yields a `BytesIO` buffer in MEMORY mode and a
temp-file path in DISK mode. -/
def indexStorageSource (mode : IndexSerializationMode) (tempPath : List Char) :
    UploadSource :=
  match mode with
  | .MEMORY => .buffer
  | .DISK => .filePath tempPath

/-- C10: with the S3 backend and in-memory serialization, the upload stage
can never succeed — `write_blob` forwards the `BytesIO` buffer straight into
the file-path-only transport upload, which rejects it for every transport
behaviour; with disk serialization the upload succeeds whenever the
transport does. -/
theorem s3_memory_mode_upload_cannot_succeed (transport : Except (List Char) Unit)
    (tempPath remote : List Char) (p : IndexBuildParameters) (b : StageBehavior) :
    (s3WriteBlob transport (indexStorageSource .MEMORY tempPath) remote).isOk = false
    ∧ (s3WriteBlob transport (indexStorageSource .MEMORY tempPath) remote
        = .error "Filename must be a string or a path-like object".toList)
    ∧ (s3WriteBlob transport (indexStorageSource .DISK tempPath) remote = transport)
    ∧ (runTasks p .MEMORY
        { b with uploadBlob :=
            s3WriteBlob transport (indexStorageSource .MEMORY tempPath) remote }).1.file_name
        = none := by
  refine ⟨rfl, rfl, rfl, ?_⟩
  obtain ⟨c, rv, rd, pd, bg, cv, ps, _⟩ := b
  cases c <;> cases rv <;> cases rd <;> cases pd <;> cases bg <;> cases cv <;> cases ps <;>
    simp [runTasks, runTasksTry, serviceBuildIndex, s3WriteBlob, boto3UploadFile,
      indexStorageSource]

/-! ## GPU-to-CPU conversion and handle ownership (C4)

The repository holds two divergent conversion implementations over the same
data model:
`FaissIndexHNSWCagraBuilder._do_convert_gpu_to_cpu_index`
(core/common/models/index_builder/faiss/faiss_index_hnsw_cagra_builder.py),
which clears the source's references before returning, and
`FaissIndexBuildService.convert_gpu_to_cpu_index`
(core/index_builder/faiss/faiss_index_build_service.py), which does not.
Native structures are identified by numbers; Python attribute mutation is
modelled by returning the source object's post-state. -/

/-- A reference held by an ID map: the wrapped native index. -/
inductive NativeIndexRef
  | gpuNative (n : Nat)
  | cpuNative (n : Nat)
  deriving Repr, DecidableEq

/-- `faiss.IndexIDMap`: an identity plus a mutable `index` attribute. -/
structure FaissIndexIDMap where
  mapId : Nat
  index : Option NativeIndexRef
  deriving Repr, DecidableEq

/-- `FaissGpuBuildIndexOutput`: the GPU build output datamodel, holding the
(optional, clearable) references to the native GPU index and the ID map. -/
structure FaissGpuBuildIndexOutput where
  gpu_index : Option Nat
  index_id_map : Option FaissIndexIDMap
  deriving Repr, DecidableEq

/-- Modelled from the spec: `FaissGpuBuildIndexOutput.cleanup` (the datamodel
file defining it is not under src/; faiss_index_hnsw_cagra_builder.py calls
it to free the memory taken by the GPU index). It releases whatever native
GPU structure is still referenced and zeroes the references; the returned
list is the set of native structures actually freed. -/
def FaissGpuBuildIndexOutput.cleanup (o : FaissGpuBuildIndexOutput) :
    FaissGpuBuildIndexOutput × List Nat :=
  (⟨none, none⟩, match o.gpu_index with | some g => [g] | none => [])

/-- `FaissCpuBuildIndexOutput`: CPU index plus ID map. -/
structure FaissCpuBuildIndexOutput where
  cpu_index : Nat
  index_id_map : FaissIndexIDMap
  deriving Repr, DecidableEq

/-- `FaissIndexHNSWCagraBuilder._do_convert_gpu_to_cpu_index`: initializes
the CPU index (`fresh`), detaches the GPU index from the ID map, detaches the
ID map from the GPU build output, points the ID map at the CPU index, frees
the GPU memory via `cleanup`, and returns the CPU build output. The first
component is the source object's post-state, the last the native structures
freed during the call. -/
def doConvertGpuToCpuIndex (fresh : Nat) (o : FaissGpuBuildIndexOutput) :
    FaissGpuBuildIndexOutput × Except (List Char) FaissCpuBuildIndexOutput × List Nat :=
  match o.gpu_index, o.index_id_map with
  | some _, some m =>
    let m1 := { m with index := (none : Option NativeIndexRef) }
    let o1 := { o with index_id_map := (none : Option FaissIndexIDMap) }
    let m2 := { m1 with index := some (NativeIndexRef.cpuNative fresh) }
    let cleaned := o1.cleanup
    (cleaned.1, .ok ⟨fresh, m2⟩, cleaned.2)
  | _, _ => (o, .error "AttributeError".toList, [])

/-- `FaissGPUIndexResponse` (response datamodel used by
faiss_index_build_service.py): references to the native GPU CAGRA index and
the ID map. -/
structure FaissGPUIndexResponse where
  gpu_index_cagra : Option Nat
  index_id_map : Option FaissIndexIDMap
  deriving Repr, DecidableEq

/-- `FaissCPUIndexResponse`
(core/common/models/index_builder/faiss/faiss_cpu_index_response.py). -/
structure FaissCPUIndexResponse where
  cpu_index : Nat
  index_id_map : FaissIndexIDMap
  deriving Repr, DecidableEq

/-- `FaissIndexBuildService.convert_gpu_to_cpu_index`: initializes the CPU
index, copies the GPU index into it, points the shared ID map at the CPU
index, and returns a CPU response built over that same ID map. It never
clears `gpu_index_cagra` or `index_id_map` on the source response. The first
component is the source object's post-state. -/
def convert_gpu_to_cpu_index (fresh : Nat) (r : FaissGPUIndexResponse) :
    FaissGPUIndexResponse × Except (List Char) FaissCPUIndexResponse :=
  match r.gpu_index_cagra, r.index_id_map with
  | some _, some m =>
    let m1 := { m with index := some (NativeIndexRef.cpuNative fresh) }
    ({ r with index_id_map := some m1 }, .ok ⟨fresh, m1⟩)
  | _, _ => (r, .error "AttributeError".toList)

/-- C4 counterexample: `FaissIndexBuildService.convert_gpu_to_cpu_index`
succeeds but leaves the source GPU response still referencing the native GPU
index (7) and the ID-map structure — now shared with the returned CPU
response — refuting the claim that every successful conversion clears the
source's references before returning. -/
theorem conversion_consumes_gpu_handle_counterexample :
    (convert_gpu_to_cpu_index 9 ⟨some 7, some ⟨3, some (.gpuNative 7)⟩⟩).2
        = .ok ⟨9, ⟨3, some (.cpuNative 9)⟩⟩
    ∧ (convert_gpu_to_cpu_index 9 ⟨some 7, some ⟨3, some (.gpuNative 7)⟩⟩).1.gpu_index_cagra
        = some 7
    ∧ (convert_gpu_to_cpu_index 9 ⟨some 7, some ⟨3, some (.gpuNative 7)⟩⟩).1.index_id_map
        = some ⟨3, some (.cpuNative 9)⟩
    ∧ ¬((convert_gpu_to_cpu_index 9 ⟨some 7, some ⟨3, some (.gpuNative 7)⟩⟩).1.gpu_index_cagra
        = none
      ∧ (convert_gpu_to_cpu_index 9 ⟨some 7, some ⟨3, some (.gpuNative 7)⟩⟩).1.index_id_map
        = none) :=
  ⟨rfl, rfl, rfl, fun h => by simpa [convert_gpu_to_cpu_index] using h.1⟩

/-- C4 amended: the `FaissIndexHNSWCagraBuilder` conversion does consume the
GPU handle — on every successful conversion it clears the source's
references to the native GPU index and to the ID map, frees the GPU native
structure exactly once, hands the ID map (now pointing at the CPU index) to
the returned CPU output, and a subsequent release of the source frees
nothing. -/
theorem builder_conversion_consumes_gpu_handle (fresh g : Nat)
    (m : FaissIndexIDMap) (o : FaissGpuBuildIndexOutput)
    (hg : o.gpu_index = some g) (hm : o.index_id_map = some m) :
    (doConvertGpuToCpuIndex fresh o).1.gpu_index = none
    ∧ (doConvertGpuToCpuIndex fresh o).1.index_id_map = none
    ∧ (doConvertGpuToCpuIndex fresh o).2.2 = [g]
    ∧ (doConvertGpuToCpuIndex fresh o).2.1
        = .ok ⟨fresh, { m with index := some (NativeIndexRef.cpuNative fresh) }⟩
    ∧ ((doConvertGpuToCpuIndex fresh o).1.cleanup).2 = [] := by
  obtain ⟨og, om⟩ := o
  cases og <;> cases om <;> simp_all [doConvertGpuToCpuIndex, FaissGpuBuildIndexOutput.cleanup]

/-- Witness for `builder_conversion_consumes_gpu_handle` at a concrete GPU
build output. -/
theorem builder_conversion_consumes_gpu_handle_witness :
    (doConvertGpuToCpuIndex 9 ⟨some 7, some ⟨3, some (.gpuNative 7)⟩⟩).1.gpu_index = none
    ∧ (doConvertGpuToCpuIndex 9 ⟨some 7, some ⟨3, some (.gpuNative 7)⟩⟩).1.index_id_map = none
    ∧ (doConvertGpuToCpuIndex 9 ⟨some 7, some ⟨3, some (.gpuNative 7)⟩⟩).2.2 = [7]
    ∧ (doConvertGpuToCpuIndex 9 ⟨some 7, some ⟨3, some (.gpuNative 7)⟩⟩).2.1
        = .ok ⟨9, ⟨3, some (NativeIndexRef.cpuNative 9)⟩⟩
    ∧ ((doConvertGpuToCpuIndex 9 ⟨some 7, some ⟨3, some (.gpuNative 7)⟩⟩).1.cleanup).2 = [] :=
  builder_conversion_consumes_gpu_handle 9 7 ⟨3, some (.gpuNative 7)⟩
    ⟨some 7, some ⟨3, some (.gpuNative 7)⟩⟩ rfl rfl

/-! ## Teardown failure handling in the two build orchestrations (C5)

`FaissIndexBuildService.build_index`
(core/index_builder/faiss/faiss_index_build_service.py lines 179-256)
initializes `gpu_index_config`, `cpu_index_config` and `gpu_index_response`
to `None` before its `try`, but not `cpu_index_response`. Its `finally`
block evaluates `if cpu_index_response is not None:`; when a stage failed
before the conversion assignment executed, that local is unbound, the guard
raises `UnboundLocalError`, and — per Python semantics — an exception raised
in a `finally` replaces the exception being propagated.

`FaissIndexBuilder.build_gpu_index`
(core/index_builder/faiss_index_builder.py) initializes
`create_gpu_index_response = None` before its `try` and wraps the `del` in
`try/except`, so there a cleanup failure is only printed. -/

/-- A Python exception escaping a call: an ordinary exception with a message,
or an `UnboundLocalError` on the named local. -/
inductive PyError
  | exc (msg : List Char)
  | unboundLocal (var : List Char)
  deriving Repr, DecidableEq

/-- Stage outcomes for `FaissIndexBuildService.build_index`: the GPU config
assembly, the GPU build, the conversion, the index write, and whether the
`del gpu_index_response` teardown itself fails. -/
structure ServiceRunBehavior where
  gpuConfigFromDict : Except (List Char) Unit
  buildGpuIndexCall : Except (List Char) Unit
  convertIndexCall : Except (List Char) Unit
  writeIndexCall : Except (List Char) Unit
  gpuTeardownFails : Bool

/-- `FaissIndexBuildService.build_index`: the try body with its per-stage
message wrappers, the except clause wrapping the propagating error, and the
finally block. `gpu_index_response` was initialized, so its guard runs and a
failing `del` there is caught and printed; `cpu_index_response` is bound
only when the conversion assignment executed, and evaluating its guard while
unbound raises `UnboundLocalError`, replacing the propagating exception. -/
def serviceBuildIndexOld (b : ServiceRunBehavior) : Except PyError Unit :=
  let tryRes : Except (List Char) Unit :=
    match b.gpuConfigFromDict with
    | .error e => .error e
    | .ok _ =>
      match b.buildGpuIndexCall with
      | .error e => .error (wrapGpuBuildError e)
      | .ok _ =>
        match b.convertIndexCall with
        | .error e => .error (wrapConvertError e)
        | .ok _ =>
          match b.writeIndexCall with
          | .error e => .error (wrapPersistError e)
          | .ok _ => .ok ()
  let afterExcept : Except PyError Unit :=
    match tryRes with
    | .ok _ => .ok ()
    | .error e => .error (.exc (wrapServiceError e))
  let cpuRespBound := b.gpuConfigFromDict.isOk && b.buildGpuIndexCall.isOk
    && b.convertIndexCall.isOk
  if cpuRespBound then afterExcept
  else .error (.unboundLocal "cpu_index_response".toList)

/-- Stage outcomes for `FaissIndexBuilder.build_gpu_index`: config assembly,
faiss config translation, GPU index creation, CPU index creation/write, and
whether the `del create_gpu_index_response` teardown fails. -/
structure BuilderRunBehavior where
  configBuild : Except (List Char) Unit
  faissConfigBuild : Except (List Char) Unit
  createGpuIndexCall : Except (List Char) Unit
  writeCpuIndexCall : Except (List Char) Unit
  teardownFails : Bool

/-- `FaissIndexBuilder.build_gpu_index` (core/index_builder/
faiss_index_builder.py): every local used by the `finally` block is
initialized before the `try`, and the `del` is wrapped in `try/except` that
prints a warning, so a teardown failure never alters the propagating
result. -/
def buildGpuIndexPipeline (b : BuilderRunBehavior) : Except PyError Unit :=
  let tryRes : Except (List Char) Unit :=
    match b.configBuild with
    | .error e => .error ("Failed to create GPU index build config: ".toList ++ e)
    | .ok _ =>
      match b.faissConfigBuild with
      | .error e => .error ("Failed to create Faiss GPU index config: ".toList ++ e)
      | .ok _ =>
        match b.createGpuIndexCall with
        | .error e =>
          .error ("Failed to create GPU index: ".toList
            ++ ("Failed to create GPU index: ".toList ++ e))
        | .ok _ =>
          match b.writeCpuIndexCall with
          | .error e =>
            .error ("Failed to create and write CPU index: ".toList
              ++ ("Failed to create and write CPU index: ".toList ++ e))
          | .ok _ => .ok ()
  match tryRes with
  | .ok _ => .ok ()
  | .error e => .error (.exc ("Failed to build GPU index: ".toList ++ e))

/-- C5: evaluating `FaissIndexBuildService.build_index` at the failing input
— the GPU build stage raises, so `cpu_index_response` was never assigned —
shows the teardown failure (`UnboundLocalError` in the `finally` block)
replacing the original stage error, contradicting the claim that the error
reported to the caller is the original stage error unchanged. In
`FaissIndexBuilder.build_gpu_index`, properly-initialized teardown never
alters the reported error for any stage failure or teardown outcome. -/
theorem cleanup_failure_masks_primary_error :
    serviceBuildIndexOld ⟨.ok (), .error "GPU build failed".toList, .ok (), .ok (), false⟩
      = .error (.unboundLocal "cpu_index_response".toList)
    ∧ serviceBuildIndexOld ⟨.ok (), .error "GPU build failed".toList, .ok (), .ok (), false⟩
      ≠ .error (.exc (wrapServiceError (wrapGpuBuildError "GPU build failed".toList)))
    ∧ (∀ (e : List Char) (tf : Bool),
        buildGpuIndexPipeline ⟨.ok (), .ok (), .error e, .ok (), tf⟩
          = .error (.exc ("Failed to build GPU index: ".toList
              ++ ("Failed to create GPU index: ".toList
                ++ ("Failed to create GPU index: ".toList ++ e))))) := by
  refine ⟨rfl, ?_, fun e tf => rfl⟩
  intro h
  simp [serviceBuildIndexOld, Except.isOk, Except.toBool] at h

/-! ## Configuration assembly: the faiss config layer (C7, C8)

Models of core/common/models/index_builder/faiss/gpu_index_cagra_config.py
and index_hnsw_cagra_config.py. Parameter dictionaries are records of
optional entries (`none` = key absent); `from_dict` returns the constructed
config together with the dictionary's post-state, because the Python code
pops keys from the caller's dictionary. -/

namespace FaissLayer

/-- `GraphBuildAlgo`: the closed set of graph build algorithms. -/
inductive GraphBuildAlgo
  | IVF_PQ
  | NN_DESCENT
  deriving Repr, DecidableEq

/-- Entries of an `ivf_pq_build_params` override dictionary. -/
structure IvfPqBuildParams where
  n_lists : Option Int := none
  pq_dim : Option Int := none
  deriving Repr, DecidableEq

/-- `IVFPQBuildCagraConfig` with the defaults of
core/common/models/index_builder/ivf_pq_build_cagra_config.py (the float
field `kmeans_trainset_fraction` is outside the model). -/
structure IVFPQBuildCagraConfig where
  n_lists : Int := 1000
  kmeans_n_iters : Int := 10
  pq_bits : Int := 8
  pq_dim : Int := 16
  conservative_memory_allocation : Bool := true
  deriving Repr, DecidableEq

/-- Modelled from the spec: `IVFPQBuildCagraConfig.from_dict` of the faiss
config layer (core/common/models/index_builder/faiss/
ivf_pq_build_cagra_config.py is not under src/). Per the spec the assembly
validates post-merge that every positive-only field is strictly greater
than 0, failing with an error naming the offending field; absent keys fall
back to the defaults. -/
def IVFPQBuildCagraConfig.from_dict (p : Option IvfPqBuildParams) :
    Except (List Char) IVFPQBuildCagraConfig :=
  match p with
  | none => .ok {}
  | some q =>
    match q.n_lists with
    | some v =>
      if v ≤ 0 then .error "IVFPQBuildCagraConfig param: n_lists must be positive".toList
      else
        match q.pq_dim with
        | some w =>
          if w ≤ 0 then .error "IVFPQBuildCagraConfig param: pq_dim must be positive".toList
          else .ok { n_lists := v, pq_dim := w }
        | none => .ok { n_lists := v }
    | none =>
      match q.pq_dim with
      | some w =>
        if w ≤ 0 then .error "IVFPQBuildCagraConfig param: pq_dim must be positive".toList
        else .ok { pq_dim := w }
      | none => .ok {}

/-- Entries of a `GPUIndexCagraConfig.from_dict` override dictionary. -/
structure GpuParams where
  intermediate_graph_degree : Option Int := none
  graph_degree : Option Int := none
  device : Option Int := none
  graph_build_algo : Option (List Char) := none
  ivf_pq_build_params : Option IvfPqBuildParams := none
  deriving Repr, DecidableEq

/-- Python `not params`: the dictionary is empty. -/
def GpuParams.isEmptyDict (p : GpuParams) : Bool :=
  p.intermediate_graph_degree.isNone && p.graph_degree.isNone && p.device.isNone
    && p.graph_build_algo.isNone && p.ivf_pq_build_params.isNone

/-- `GPUIndexCagraConfig` of the faiss config layer, with its defaults. -/
structure GPUIndexCagraConfig where
  intermediate_graph_degree : Int := 128
  graph_degree : Int := 64
  graph_build_algo : GraphBuildAlgo := GraphBuildAlgo.IVF_PQ
  store_dataset : Bool := true
  device : Int := 0
  ivf_pq_build_config : IVFPQBuildCagraConfig := {}
  deriving Repr, DecidableEq

/-- `GraphBuildAlgo(value)`: enum lookup over the closed variant set,
raising `ValueError` for anything else. -/
def graphBuildAlgoOfString (s : List Char) : Except (List Char) GraphBuildAlgo :=
  if s = "IVF_PQ".toList then .ok GraphBuildAlgo.IVF_PQ
  else if s = "NN_DESCENT".toList then .ok GraphBuildAlgo.NN_DESCENT
  else .error (s ++ " is not a valid GraphBuildAlgo".toList)

/-- `GPUIndexCagraConfig._validate_params`: pre-validates the entries that
are present — `intermediate_graph_degree` and `graph_degree` must be
positive, `device` non-negative — raising `ValueError` naming the offending
field. No other field is checked. -/
def validate_params (p : GpuParams) : Except (List Char) Unit :=
  match p.intermediate_graph_degree with
  | some v =>
    if v ≤ 0 then
      .error "GPUIndexCagraConfig param: intermediate_graph_degree must be positive".toList
    else validateGraphDegree p
  | none => validateGraphDegree p
where
  validateGraphDegree (p : GpuParams) : Except (List Char) Unit :=
    match p.graph_degree with
    | some v =>
      if v ≤ 0 then .error "GPUIndexCagraConfig param: graph_degree must be positive".toList
      else validateDevice p
    | none => validateDevice p
  validateDevice (p : GpuParams) : Except (List Char) Unit :=
    match p.device with
    | some v =>
      if v < 0 then .error "GPUIndexCagraConfig param: device must be non-negative".toList
      else .ok ()
    | none => .ok ()

/-- The enum conversion step of `GPUIndexCagraConfig.from_dict`: a present
`graph_build_algo` key goes through the enum lookup, an absent one falls
back to the class default. -/
def GPUIndexCagraConfig.algoOfParams (p : GpuParams) :
    Except (List Char) GraphBuildAlgo :=
  match p.graph_build_algo with
  | some s => graphBuildAlgoOfString s
  | none => .ok GraphBuildAlgo.IVF_PQ

/-- The value `GPUIndexCagraConfig.from_dict` computes (or the error it
raises): on an empty dictionary the defaults; otherwise the nested IVF-PQ
assembly, the enum conversion, the pre-validation, and the construction with
defaults for absent keys, in the source's order. -/
def GPUIndexCagraConfig.assembleResult (p : GpuParams) :
    Except (List Char) GPUIndexCagraConfig :=
  if p.isEmptyDict then .ok {}
  else
    match IVFPQBuildCagraConfig.from_dict p.ivf_pq_build_params with
    | .error e => .error e
    | .ok ivfCfg =>
      match algoOfParams p with
      | .error e => .error e
      | .ok algo =>
        match validate_params { p with ivf_pq_build_params := none } with
        | .error e => .error e
        | .ok _ =>
          .ok { intermediate_graph_degree := p.intermediate_graph_degree.getD 128
                graph_degree := p.graph_degree.getD 64
                graph_build_algo := algo
                device := p.device.getD 0
                ivf_pq_build_config := ivfCfg }

/-- The post-state of the caller's dictionary after
`GPUIndexCagraConfig.from_dict`: the non-empty branch pops the
`ivf_pq_build_params` sub-dictionary out of it. -/
def GPUIndexCagraConfig.postDict (p : GpuParams) : GpuParams :=
  if p.isEmptyDict then p else { p with ivf_pq_build_params := none }

/-- `GPUIndexCagraConfig.from_dict`: returns the assembled configuration (or
the raised error) together with the caller's dictionary post-state — the
Python method mutates its `params` argument. -/
def GPUIndexCagraConfig.from_dict (p : GpuParams) :
    Except (List Char) GPUIndexCagraConfig × GpuParams :=
  (assembleResult p, postDict p)

/-- Entries of an `IndexHNSWCagraConfig.from_dict` override dictionary. -/
structure HnswParams where
  ef_search : Option Int := none
  ef_construction : Option Int := none
  base_level_only : Option Bool := none
  deriving Repr, DecidableEq

/-- `IndexHNSWCagraConfig` of the faiss config layer
(core/common/models/index_builder/faiss/index_hnsw_cagra_config.py). -/
structure IndexHNSWCagraConfig where
  ef_search : Int := 100
  ef_construction : Int := 100
  base_level_only : Bool := true
  deriving Repr, DecidableEq

/-- `IndexHNSWCagraConfig.from_dict`: `cls(**params)` with defaults for
absent keys — it performs no validation whatsoever. -/
def IndexHNSWCagraConfig.from_dict (p : HnswParams) : IndexHNSWCagraConfig :=
  { ef_search := p.ef_search.getD 100
    ef_construction := p.ef_construction.getD 100
    base_level_only := p.base_level_only.getD true }

end FaissLayer

/-- C7 counterexample: the override `{"ef_search": 0}` violates the
positive-only constraint claimed for `ef_search`, yet
`IndexHNSWCagraConfig.from_dict` succeeds and yields a configuration whose
`ef_search` is 0 — construction does not fail, and the produced
configuration breaks the positivity invariant. -/
theorem config_validation_counterexample :
    FaissLayer.IndexHNSWCagraConfig.from_dict { ef_search := some 0 }
      = { ef_search := 0, ef_construction := 100, base_level_only := true }
    ∧ ¬((0 : Int) > 0) :=
  ⟨rfl, by decide⟩

/-- The IVF-PQ sub-assembly only produces configs with positive knobs. -/
theorem ivf_from_dict_pos (o : Option FaissLayer.IvfPqBuildParams)
    (cfg : FaissLayer.IVFPQBuildCagraConfig)
    (h : FaissLayer.IVFPQBuildCagraConfig.from_dict o = .ok cfg) :
    cfg.n_lists > 0 ∧ cfg.pq_dim > 0 := by
  rcases o with _ | ⟨nl, pqd⟩
  · have hc := Except.ok.inj h
    subst hc
    exact ⟨by decide, by decide⟩
  · rcases nl with _ | v <;> rcases pqd with _ | w <;>
      simp only [FaissLayer.IVFPQBuildCagraConfig.from_dict] at h <;>
      (try split_ifs at h) <;>
      first
        | exact Except.noConfusion h
        | (have hc := Except.ok.inj h
           subst hc
           constructor <;> dsimp only <;> omega)

/-- A successful device check bounds a present `device` entry. -/
theorem validateDevice_ok (q : FaissLayer.GpuParams)
    (h : FaissLayer.validate_params.validateDevice q = .ok ()) :
    ∀ v, q.device = some v → 0 ≤ v := by
  intro v hv
  simp only [FaissLayer.validate_params.validateDevice, hv] at h
  split_ifs at h with hc
  omega

/-- A successful graph-degree check bounds a present `graph_degree` entry and
hands the dictionary on to the device check. -/
theorem validateGraphDegree_ok (q : FaissLayer.GpuParams)
    (h : FaissLayer.validate_params.validateGraphDegree q = .ok ()) :
    (∀ v, q.graph_degree = some v → 0 < v)
    ∧ FaissLayer.validate_params.validateDevice q = .ok () := by
  obtain ⟨igd, gd, dev, algo, ivf⟩ := q
  rcases gd with _ | w
  · simp only [FaissLayer.validate_params.validateGraphDegree] at h
    exact ⟨fun v hv => Option.noConfusion hv, h⟩
  · simp only [FaissLayer.validate_params.validateGraphDegree] at h
    split_ifs at h with hc
    refine ⟨fun v hv => ?_, h⟩
    have hw := Option.some.inj hv
    omega
/-- A successful pre-validation bounds every present checked entry. -/
theorem validate_params_ok_bounds (q : FaissLayer.GpuParams)
    (h : FaissLayer.validate_params q = .ok ()) :
    (∀ v, q.intermediate_graph_degree = some v → 0 < v)
    ∧ (∀ v, q.graph_degree = some v → 0 < v)
    ∧ (∀ v, q.device = some v → 0 ≤ v) := by
  obtain ⟨igd, gd, dev, algo, ivf⟩ := q
  rcases igd with _ | w
  · simp only [FaissLayer.validate_params] at h
    have hg := validateGraphDegree_ok _ h
    exact ⟨fun v hv => Option.noConfusion hv, hg.1, validateDevice_ok _ hg.2⟩
  · simp only [FaissLayer.validate_params] at h
    split_ifs at h with hc
    have hg := validateGraphDegree_ok _ h
    refine ⟨fun v hv => ?_, hg.1, validateDevice_ok _ hg.2⟩
    have hw := Option.some.inj hv
    omega

/-- C7 amended: the GPU-side assembly does enforce its checked constraints —
every configuration it produces has positive graph degrees, positive IVF-PQ
knobs and a non-negative device, and an override violating a checked field
fails with an error naming that field — but the CPU-side
`IndexHNSWCagraConfig.from_dict` accepts any `ef_search`/`ef_construction`
unvalidated. -/
theorem gpu_config_post_merge_validation :
    (∀ (p : FaissLayer.GpuParams) (cfg : FaissLayer.GPUIndexCagraConfig)
        (post : FaissLayer.GpuParams),
        FaissLayer.GPUIndexCagraConfig.from_dict p = (.ok cfg, post) →
          cfg.intermediate_graph_degree > 0 ∧ cfg.graph_degree > 0 ∧ cfg.device ≥ 0
          ∧ cfg.ivf_pq_build_config.n_lists > 0 ∧ cfg.ivf_pq_build_config.pq_dim > 0)
    ∧ (∀ v : Int, v ≤ 0 →
        (FaissLayer.GPUIndexCagraConfig.from_dict { graph_degree := some v }).1
          = .error "GPUIndexCagraConfig param: graph_degree must be positive".toList)
    ∧ (∀ e : Int,
        (FaissLayer.IndexHNSWCagraConfig.from_dict { ef_search := some e }).ef_search = e) := by
  refine ⟨?_, ?_, fun e => rfl⟩
  · intro p cfg post h
    have h1 : FaissLayer.GPUIndexCagraConfig.assembleResult p = .ok cfg :=
      congrArg Prod.fst h
    rw [FaissLayer.GPUIndexCagraConfig.assembleResult] at h1
    by_cases he : p.isEmptyDict
    · rw [if_pos (by exact he)] at h1
      have hc := Except.ok.inj h1
      subst hc
      exact ⟨by decide, by decide, by decide, by decide, by decide⟩
    · rw [if_neg (by exact he)] at h1
      rcases hivf : FaissLayer.IVFPQBuildCagraConfig.from_dict p.ivf_pq_build_params
        with e | ivfCfg <;> rw [hivf] at h1
      · exact Except.noConfusion h1
      · rcases halgo : FaissLayer.GPUIndexCagraConfig.algoOfParams p with e | algo <;>
          rw [halgo] at h1
        · exact Except.noConfusion h1
        · rcases hval : FaissLayer.validate_params
            { p with ivf_pq_build_params := none } with e | u <;> rw [hval] at h1
          · exact Except.noConfusion h1
          · have hc := Except.ok.inj h1
            subst hc
            have hb := validate_params_ok_bounds { p with ivf_pq_build_params := none } hval
            have hiv := ivf_from_dict_pos p.ivf_pq_build_params ivfCfg hivf
            refine ⟨?_, ?_, ?_, hiv.1, hiv.2⟩
            · rcases hpi : p.intermediate_graph_degree with _ | v
              · simp [hpi]
              · simpa [hpi] using hb.1 v hpi
            · rcases hpg : p.graph_degree with _ | v
              · simp [hpg]
              · simpa [hpg] using hb.2.1 v hpg
            · rcases hpd : p.device with _ | v
              · simp [hpd]
              · simpa [hpd] using hb.2.2 v hpd
  · intro v hv
    show FaissLayer.GPUIndexCagraConfig.assembleResult { graph_degree := some v } = _
    rw [FaissLayer.GPUIndexCagraConfig.assembleResult]
    rw [if_neg (by simp [FaissLayer.GpuParams.isEmptyDict])]
    simp only [FaissLayer.IVFPQBuildCagraConfig.from_dict,
      FaissLayer.GPUIndexCagraConfig.algoOfParams, FaissLayer.validate_params,
      FaissLayer.validate_params.validateGraphDegree]
    rw [if_pos hv]

/-- Witness for `gpu_config_post_merge_validation`: the theorem applied at a
concrete accepted override and at a concrete rejected override. -/
theorem gpu_config_post_merge_validation_witness :
    ((48 : Int) > 0 ∧ (64 : Int) > 0)
    ∧ (FaissLayer.GPUIndexCagraConfig.from_dict { graph_degree := some (-3) }).1
        = .error "GPUIndexCagraConfig param: graph_degree must be positive".toList :=
  ⟨⟨(gpu_config_post_merge_validation.1 { intermediate_graph_degree := some 48 }
      { intermediate_graph_degree := 48 } { intermediate_graph_degree := some 48 }
      (by rfl)).1,
    (gpu_config_post_merge_validation.1 { intermediate_graph_degree := some 48 }
      { intermediate_graph_degree := 48 } { intermediate_graph_degree := some 48 }
      (by rfl)).2.1⟩,
    gpu_config_post_merge_validation.2.1 (-3) (by decide)⟩

/-- C8 counterexample: `GPUIndexCagraConfig.from_dict` pops the
`ivf_pq_build_params` sub-dictionary out of its argument, so the second of
two calls that share the one dictionary object sees the key gone and falls
back to the default IVF-PQ config: the two calls with the identical
dictionary yield structurally different configurations (`n_lists` 5 versus
the default 1000), and the dictionary itself is no longer equal to the one
supplied. -/
theorem config_assembly_repeat_call_counterexample :
    (FaissLayer.GPUIndexCagraConfig.from_dict
        { graph_degree := some 70, ivf_pq_build_params := some { n_lists := some 5 } }).1
      = .ok { graph_degree := 70, ivf_pq_build_config := { n_lists := 5 } }
    ∧ (FaissLayer.GPUIndexCagraConfig.from_dict
        ((FaissLayer.GPUIndexCagraConfig.from_dict
          { graph_degree := some 70,
            ivf_pq_build_params := some { n_lists := some 5 } }).2)).1
      = .ok { graph_degree := 70 }
    ∧ ({ graph_degree := 70, ivf_pq_build_config := { n_lists := 5 } }
        : FaissLayer.GPUIndexCagraConfig)
      ≠ { graph_degree := 70 }
    ∧ (FaissLayer.GPUIndexCagraConfig.from_dict
        { graph_degree := some 70, ivf_pq_build_params := some { n_lists := some 5 } }).2
      ≠ { graph_degree := some 70, ivf_pq_build_params := some { n_lists := some 5 } } :=
  ⟨rfl, rfl, by decide, by decide⟩

/-- C8 amended: the assembly is a pure function of its input — two calls on
structurally identical, independently supplied override dictionaries yield
structurally identical configurations (and identical dictionary
post-states); only reusing the one mutated dictionary object differs. -/
theorem config_assembly_deterministic (p q : FaissLayer.GpuParams) (h : p = q) :
    FaissLayer.GPUIndexCagraConfig.from_dict p
      = FaissLayer.GPUIndexCagraConfig.from_dict q := by
  rw [h]

/-- Witness for `config_assembly_deterministic` at a concrete override. -/
theorem config_assembly_deterministic_witness :
    FaissLayer.GPUIndexCagraConfig.from_dict
        { graph_degree := some 70, ivf_pq_build_params := some { n_lists := some 5 } }
      = FaissLayer.GPUIndexCagraConfig.from_dict
        { graph_degree := some 70, ivf_pq_build_params := some { n_lists := some 5 } } :=
  config_assembly_deterministic _ _ rfl

/-! ## The builder/director configuration assembly (C9)

Models of core/index_builder/index_config_builder.py and
index_config_director.py with the configuration datamodels of
core/common/models/index_builder/ (the older layer: different defaults from
the faiss layer above). -/

namespace CoreLayer

/-- Modelled from the spec: `SpaceType`, the distance-metric enum of
core/common/models/index_build_parameters.py (not under src/); its closed
set per the spec is l2 (the documented default), inner product and cosine
similarity. -/
inductive SpaceType
  | l2
  | innerproduct
  | cosinesimil
  deriving Repr, DecidableEq

/-- `CagraGraphBuildAlgo`
(core/common/models/index_builder/cagra_graph_build_algo.py). -/
inductive CagraGraphBuildAlgo
  | IVF_PQ
  | NN_DESCENT
  deriving Repr, DecidableEq

/-- `IndexHNSWCagraConfig` of core/common/models/index_builder/
index_hnsw_cagra_config.py, with its defaults. -/
structure IndexHNSWCagraConfig where
  ef_search : Int := 256
  ef_construction : Int := 40
  base_level_only : Bool := true
  own_fields : Bool := true
  deriving Repr, DecidableEq

/-- `IVFPQBuildCagraConfig` of core/common/models/index_builder/
ivf_pq_build_cagra_config.py, with its defaults (the float field
`kmeans_trainset_fraction` is outside the model). -/
structure IVFPQBuildCagraConfig where
  n_lists : Int := 1000
  kmeans_n_iters : Int := 10
  pq_bits : Int := 8
  pq_dim : Int := 16
  conservative_memory_allocation : Bool := true
  deriving Repr, DecidableEq

/-- `GPUIndexCagraConfig` of core/common/models/index_builder/
gpu_index_cagra_config.py, with its defaults. -/
structure GPUIndexCagraConfig where
  intermediate_graph_degree : Int := 64
  graph_degree : Int := 32
  graph_build_algo : CagraGraphBuildAlgo := CagraGraphBuildAlgo.IVF_PQ
  store_dataset : Bool := false
  device : Int := 0
  ivf_pq_build_config : IVFPQBuildCagraConfig := {}
  deriving Repr, DecidableEq

/-- `GPUIndexBuildConfig` (core/common/models/index_builder/
gpu_index_build_config.py). The metric is an `Option` because
`construct_config` passes `config_params.get("metric")`, which is `None`
when the key is absent. -/
structure GPUIndexBuildConfig where
  index_hnsw_cagra_config : IndexHNSWCagraConfig
  gpu_index_cagra_config : GPUIndexCagraConfig
  metric : Option SpaceType
  deriving Repr, DecidableEq

/-- Entries of an `hnsw_config` override dictionary. -/
structure HnswConfigParams where
  ef_search : Option Int := none
  ef_construction : Option Int := none
  base_level_only : Option Bool := none
  own_fields : Option Bool := none
  deriving Repr, DecidableEq

/-- Python `not params` for an `hnsw_config` dictionary. -/
def HnswConfigParams.isEmptyDict (p : HnswConfigParams) : Bool :=
  p.ef_search.isNone && p.ef_construction.isNone && p.base_level_only.isNone
    && p.own_fields.isNone

/-- Entries of an `ivf_pq_build_params` override dictionary. -/
structure IvfPqConfigParams where
  n_lists : Option Int := none
  pq_dim : Option Int := none
  deriving Repr, DecidableEq

/-- Entries of a `gpu_config` override dictionary. -/
structure GpuConfigParams where
  intermediate_graph_degree : Option Int := none
  graph_degree : Option Int := none
  device : Option Int := none
  store_dataset : Option Bool := none
  graph_build_algo : Option (List Char) := none
  ivf_pq_build_params : Option IvfPqConfigParams := none
  deriving Repr, DecidableEq

/-- Python `not params` for a `gpu_config` dictionary. -/
def GpuConfigParams.isEmptyDict (p : GpuConfigParams) : Bool :=
  p.intermediate_graph_degree.isNone && p.graph_degree.isNone && p.device.isNone
    && p.store_dataset.isNone && p.graph_build_algo.isNone
    && p.ivf_pq_build_params.isNone

/-- `GraphBuildAlgo(value)` over the closed variant set. -/
def cagraAlgoOfString (s : List Char) : Except (List Char) CagraGraphBuildAlgo :=
  if s = "IVF_PQ".toList then .ok CagraGraphBuildAlgo.IVF_PQ
  else if s = "NN_DESCENT".toList then .ok CagraGraphBuildAlgo.NN_DESCENT
  else .error (s ++ " is not a valid GraphBuildAlgo".toList)

/-- `IndexConfigBuilder` (core/index_builder/index_config_builder.py): HNSW
and GPU configs start unset; the metric starts at the documented default
`SpaceType("l2")`. -/
structure IndexConfigBuilder where
  _hnsw_config : Option IndexHNSWCagraConfig := none
  _gpu_config : Option GPUIndexCagraConfig := none
  _metric : Option SpaceType := some SpaceType.l2
  deriving Repr, DecidableEq

/-- `IndexConfigBuilder.set_hnsw_config`:
`IndexHNSWCagraConfig(**params) if params else IndexHNSWCagraConfig()`. -/
def IndexConfigBuilder.set_hnsw_config (b : IndexConfigBuilder)
    (params : HnswConfigParams) : IndexConfigBuilder :=
  { b with
    _hnsw_config :=
      some (if params.isEmptyDict then {}
        else
          { ef_search := params.ef_search.getD 256
            ef_construction := params.ef_construction.getD 40
            base_level_only := params.base_level_only.getD true
            own_fields := params.own_fields.getD true }) }

/-- `IndexConfigBuilder.set_gpu_config`: the default config on an empty
dictionary, otherwise the IVF-PQ sub-dictionary is popped and assembled, the
algorithm enum converted (`ValueError` on an unknown variant), and the GPU
config constructed with defaults for absent keys. -/
def IndexConfigBuilder.set_gpu_config (b : IndexConfigBuilder)
    (params : GpuConfigParams) : Except (List Char) IndexConfigBuilder :=
  if params.isEmptyDict then .ok { b with _gpu_config := some {} }
  else
    let ivfCfg : IVFPQBuildCagraConfig :=
      match params.ivf_pq_build_params with
      | some q => { n_lists := q.n_lists.getD 1000, pq_dim := q.pq_dim.getD 16 }
      | none => {}
    match (match params.graph_build_algo with
           | some s => cagraAlgoOfString s
           | none => .ok CagraGraphBuildAlgo.IVF_PQ) with
    | .error e => .error e
    | .ok algo =>
      .ok { b with
        _gpu_config := some
          { intermediate_graph_degree := params.intermediate_graph_degree.getD 64
            graph_degree := params.graph_degree.getD 32
            graph_build_algo := algo
            store_dataset := params.store_dataset.getD false
            device := params.device.getD 0
            ivf_pq_build_config := ivfCfg } }

/-- `IndexConfigBuilder.set_metric`: unconditionally overwrites the stored
metric with its argument — including `None`. -/
def IndexConfigBuilder.set_metric (b : IndexConfigBuilder)
    (metric : Option SpaceType) : IndexConfigBuilder :=
  { b with _metric := metric }

/-- `IndexConfigBuilder.build`: defaults for unset configs, then the final
`GPUIndexBuildConfig`. -/
def IndexConfigBuilder.build (b : IndexConfigBuilder) : GPUIndexBuildConfig :=
  { index_hnsw_cagra_config := b._hnsw_config.getD {}
    gpu_index_cagra_config := b._gpu_config.getD {}
    metric := b._metric }

/-- The `config_params` dictionary `construct_config` receives. -/
structure ConfigParams where
  hnsw_config : Option HnswConfigParams := none
  gpu_config : Option GpuConfigParams := none
  metric : Option SpaceType := none
  deriving Repr, DecidableEq

/-- `IndexConfigDirector.construct_config`
(core/index_builder/index_config_director.py):
`set_hnsw_config(config_params.get("hnsw_config", {}))`, then
`set_gpu_config(config_params.get("gpu_config", {}))`, then
`set_metric(config_params.get("metric"))` — note the missing default on the
metric lookup — then `build()`. -/
def IndexConfigDirector.construct_config (cp : ConfigParams) :
    Except (List Char) GPUIndexBuildConfig :=
  let b1 := IndexConfigBuilder.set_hnsw_config {} (cp.hnsw_config.getD {})
  match b1.set_gpu_config (cp.gpu_config.getD {}) with
  | .error e => .error e
  | .ok b2 => .ok ((b2.set_metric cp.metric).build)

end CoreLayer

/-- C9: assembling from the entirely absent override tree does not raise and
yields the documented defaults for the HNSW and GPU layers — but the
assembled metric is `None`, not the documented default `"l2"`: the builder
starts with `SpaceType("l2")`, and `construct_config` overwrites it with
`config_params.get("metric")`, which is `None` when no metric is specified,
contradicting `construct_config`'s own docstring ("metric ... defaults to
l2"). -/
theorem construct_config_empty_metric_none :
    CoreLayer.IndexConfigDirector.construct_config {}
      = .ok { index_hnsw_cagra_config := {}, gpu_index_cagra_config := {},
              metric := none }
    ∧ ({} : CoreLayer.IndexConfigBuilder)._metric = some CoreLayer.SpaceType.l2
    ∧ (none : Option CoreLayer.SpaceType) ≠ some CoreLayer.SpaceType.l2 :=
  ⟨rfl, rfl, by decide⟩

end RVIB
